import Mathlib

/-!
Verification of the PS_LLM backend (query pipeline, provider clients,
embedding client, chat store) against its natural-language specification.

The Python source is shallowly embedded: each service function becomes a
total Lean function over explicit representations of its inputs (HTTP
outcomes, parsed JSON bodies, stream lines), exceptions become `Except` /
`Option`, and the relational store becomes an explicit in-memory state.
-/

set_option autoImplicit false

namespace PSLLM

/-! ## Provider selection

`LLMProvider` is the `str`-valued enum of `src/src/app/services/llm_services.py`
(lines 16-18): exactly two members, with request-body values
`"Digital Ocean"` and `"Ollama"`.
-/

inductive LLMProvider where
  | DIGITAL_OCEAN
  | OLLAMA
deriving DecidableEq, Repr

/-- The `value` of each enum member, as it appears in request bodies. -/
def LLMProvider.value : LLMProvider → String
  | .DIGITAL_OCEAN => "Digital Ocean"
  | .OLLAMA => "Ollama"

/-- Pydantic validation of the `provider` field of
`QueryRequest` in `src/src/app/schemas/llm_schema.py` (line 23), whose
declared type is the `LLMProvider` enum: the incoming string must equal one
of the two member values, otherwise request validation fails (HTTP 422)
before the route handler — and hence any outbound call — runs. -/
def LLMProvider.ofString (s : String) : Option LLMProvider :=
  if s = "Digital Ocean" then some .DIGITAL_OCEAN
  else if s = "Ollama" then some .OLLAMA
  else none

/-- Provider selection in `src/app/services/chat_service.py` (lines 23-28),
the revision whose `QueryRequest.provider` is a plain `str`
(`src/app/schemas/chat.py` line 11):
`provider = DIGITAL_OCEAN if llm_provider == "Digital Ocean" else OLLAMA`. -/
def ChatService.selectProvider (llm_provider : String) : LLMProvider :=
  if llm_provider = "Digital Ocean" then .DIGITAL_OCEAN else .OLLAMA

/-! ## Streaming response assembly

`LLMService._handle_streaming_response` (llm_services.py lines 102-170) and
`LLMService._handle_ollama_streaming_response` (lines 257-299) iterate the
lines of a chunked HTTP response, extract a content fragment from each line
that parses, append it to a running `full_response`, and invoke the stream
callback with the cumulative text after each append.

A received line is embedded by what the per-line parsing extracts from it;
JSON decoding itself is external library behaviour, so a line is represented
by its parse outcome.
-/

/-- One line of a Digital Ocean streaming response, as classified by the
loop body at llm_services.py lines 133-164: falsy lines are skipped; after
stripping an optional `data: ` preamble, `[DONE]` / blank markers are
skipped; lines that fail JSON decoding or carry no usable `choices[0]`
entry are skipped; otherwise `choices[0].delta.content` or
`choices[0].text` yields a (possibly empty) content fragment. -/
inductive DOStreamLine where
  | empty
  | doneMarker
  | malformed
  | deltaContent (content : String)
  | textContent (content : String)
deriving DecidableEq, Repr

/-- Content fragment extracted from a Digital Ocean stream line, if any. -/
def doLineContent : DOStreamLine → Option String
  | .deltaContent c => some c
  | .textContent c => some c
  | _ => none

/-- One line of an Ollama streaming response, as classified by the loop at
llm_services.py lines 271-293: falsy lines and JSON-decode failures are
skipped; a decoded object without a `response` key is skipped; otherwise
the `response` field yields a (possibly empty) content fragment. -/
inductive OllamaStreamLine where
  | empty
  | malformed
  | noResponseField
  | responseContent (content : String)
deriving DecidableEq, Repr

/-- Content fragment extracted from an Ollama stream line, if any. -/
def ollamaLineContent : OllamaStreamLine → Option String
  | .responseContent c => some c
  | _ => none

/-- The accumulation loop shared verbatim by both streaming handlers:
for each line whose extracted content is non-empty,
`full_response += content; stream_callback(full_response)`.
Returns the final `full_response` together with the list of arguments
passed to the callback, in invocation order. -/
def streamAccum (full : String) : List (Option String) → String × List String
  | [] => (full, [])
  | none :: rest => streamAccum full rest
  | some s :: rest =>
    if s = "" then streamAccum full rest
    else ((streamAccum (full ++ s) rest).1, (full ++ s) :: (streamAccum (full ++ s) rest).2)

/-- Outcome of an outbound HTTP request as observed by the calling Python
code: either an exception raised by the `requests` library (connection
refused, timeout, ...) carrying its message, or a response with a status
code and a body (already shaped by the caller's parsing). -/
inductive HttpResult (β : Type) where
  | exn (msg : String)
  | resp (status : Nat) (body : β)

/-- What iterating `response.iter_lines()` over one chunked response
delivers: the lines received, and then either normal exhaustion
(`interrupted = none`) or a transport error raised mid-iteration — a
connection drop after some chunks — carrying its message. -/
structure StreamBody (α : Type) where
  lines : List α
  interrupted : Option String

/-- `LLMService._handle_streaming_response` (lines 102-170): on an
exception raised before any line is delivered, the outer handler (lines
167-170) returns `"Error: " ++ msg` with no callback fired; on a non-200
status it returns `"Error: " ++ str(status_code)`; otherwise the
accumulation loop runs over the delivered lines, and if iteration then
raises mid-stream the same outer handler returns `"Error: " ++ msg` —
after the callbacks for the delivered lines have already fired. Result:
the returned string and the callback invocation arguments. -/
def handle_streaming_response (r : HttpResult (StreamBody DOStreamLine)) :
    String × List String :=
  match r with
  | .exn msg => ("Error: " ++ msg, [])
  | .resp status body =>
    if status ≠ 200 then ("Error: " ++ toString status, [])
    else
      match body.interrupted with
      | none => streamAccum "" (body.lines.map doLineContent)
      | some msg =>
        ("Error: " ++ msg, (streamAccum "" (body.lines.map doLineContent)).2)

/-- `LLMService._handle_ollama_streaming_response` (lines 257-299):
`raise_for_status` raises for status ≥ 400, and that exception (like a
connection error before the first line) is caught by the outer handler
(lines 296-299) as `"Error: " ++ msg`; otherwise the accumulation loop
runs over the delivered newline-delimited JSON lines, and a transport
error raised mid-iteration reaches the same outer handler after the
callbacks for the delivered lines have fired. The exception text produced
by `raise_for_status` is modelled by the status code's decimal string. -/
def handle_ollama_streaming_response (r : HttpResult (StreamBody OllamaStreamLine)) :
    String × List String :=
  match r with
  | .exn msg => ("Error: " ++ msg, [])
  | .resp status body =>
    if 400 ≤ status then ("Error: " ++ toString status, [])
    else
      match body.interrupted with
      | none => streamAccum "" (body.lines.map ollamaLineContent)
      | some msg =>
        ("Error: " ++ msg, (streamAccum "" (body.lines.map ollamaLineContent)).2)

/-- `a` is a prefix of `b` as strings. -/
def StrPrefix (a b : String) : Prop := ∃ t, a ++ t = b

/-- Specification of one streaming-handler run `p = (returned, callbackArgs)`
on a successful initial response with `contentChunks` content-bearing
received chunks and `interrupted` recording whether line iteration raised
mid-stream: consecutive callback values form a prefix chain, their lengths
are non-decreasing, the callback fired once per content-bearing chunk;
when the stream completed normally the returned string is the last
delivered callback value (or `""` when no callback fired); when iteration
raised mid-stream the returned string is the error message with the
`"Error: "` preamble instead. -/
def StreamRun (p : String × List String) (contentChunks : Nat)
    (interrupted : Option String) : Prop :=
  List.Chain' StrPrefix p.2 ∧
  List.Chain' (fun a b => a.length ≤ b.length) p.2 ∧
  p.2.length = contentChunks ∧
  (interrupted = none → (p.2.getLast? = some p.1 ∨ (p.2 = [] ∧ p.1 = ""))) ∧
  (∀ msg, interrupted = some msg → p.1 = "Error: " ++ msg)

/-! ## C3: terminal completion signal -/

/-- The distinguished completion marker placed on the streaming handoff
queue (src/src/routes/api/v1.py lines 61, 94, 100). -/
def DONE_SIGNAL : String := "__DONE__"

/-- `process_query_background` (src/src/routes/api/v1.py lines 85-100):
the strings the background task itself puts on the handoff queue after
invoking the pipeline. On success it puts the completion marker; on any
raised exception it puts `"Error: " ++ msg` followed by the completion
marker. -/
def process_query_background (outcome : Except String String) : List String :=
  match outcome with
  | .ok _ => [DONE_SIGNAL]
  | .error e => ["Error: " ++ e, DONE_SIGNAL]

/-! ## C4: provider client error policy

`generate_response` dispatches to one of two backends
(llm_services.py lines 24-39); each backend wraps its HTTP call so that a
raised exception or a failing status code is converted into a string
beginning with `"Error: "`, and each handler returns a plain string on
every input — the caller never sees an exception.
-/

/-- Parsed body of a non-streaming Digital Ocean response, as consumed by
`_handle_normal_response` (lines 195-207): `response.json()` may raise
(malformed body), the `choices` key may be absent or empty, or the first
choice's `message.content` may be present or not. -/
inductive DOBody where
  | malformed (msg : String)
  | noChoices
  | firstChoice (messageContent : Option String)

/-- Parsed body of a non-streaming Ollama response, as consumed by
`_handle_ollama_normal_response` (lines 304-308): `response.json()` may
raise, and the decoded object's `response` key may be absent. -/
inductive OllamaBody where
  | malformed (msg : String)
  | dict (response : Option String)

/-- `LLMService._handle_normal_response` (llm_services.py lines 172-211):
a raised exception yields `"Error: " ++ msg`; a non-200 status yields
`"Error: " ++ str(status_code)`; a body that fails JSON decoding raises
inside the `try` and yields `"Error: " ++ msg`; otherwise the first
choice's `message.content` is returned, with the source's literal
fallback strings for an absent key. -/
def handle_normal_response (r : HttpResult DOBody) : String :=
  match r with
  | .exn msg => "Error: " ++ msg
  | .resp status body =>
    if status ≠ 200 then "Error: " ++ toString status
    else
      match body with
      | .malformed msg => "Error: " ++ msg
      | .noChoices => "No valid response content received"
      | .firstChoice mc => mc.getD "No content in response"

/-- `LLMService._handle_ollama_normal_response` (lines 301-311):
`raise_for_status` raises for status ≥ 400 and the exception is caught as
a `RequestException`, yielding `"Error: " ++ msg` (the exception text is
modelled by the status code's decimal string); a JSON-decoding failure
likewise; otherwise `result.get("response", "")`. -/
def handle_ollama_normal_response (r : HttpResult OllamaBody) : String :=
  match r with
  | .exn msg => "Error: " ++ msg
  | .resp status body =>
    if 400 ≤ status then "Error: " ++ toString status
    else
      match body with
      | .malformed msg => "Error: " ++ msg
      | .dict resp => resp.getD ""

/-- The HTTP outcomes a single `generate_response` call may observe, one
per backend and mode; the dispatch selects the one actually issued. -/
structure ProviderEnv where
  doStream : HttpResult (StreamBody DOStreamLine)
  doNormal : HttpResult DOBody
  ollamaStream : HttpResult (StreamBody OllamaStreamLine)
  ollamaNormal : HttpResult OllamaBody

/-- `LLMService.generate_response` (llm_services.py lines 24-39), composed
with each backend's streaming / non-streaming split (lines 88-95 and
246-255): Digital Ocean when `provider == DIGITAL_OCEAN`, otherwise
Ollama; the streaming handler is used exactly when a stream callback was
supplied. Always returns a string. -/
def generate_response (env : ProviderEnv) (provider : LLMProvider) (streaming : Bool) :
    String :=
  match provider with
  | .DIGITAL_OCEAN =>
    if streaming then (handle_streaming_response env.doStream).1
    else handle_normal_response env.doNormal
  | .OLLAMA =>
    if streaming then (handle_ollama_streaming_response env.ollamaStream).1
    else handle_ollama_normal_response env.ollamaNormal

/-- Full-request failure as observed by the Digital Ocean handlers: a
raised exception, or a non-200 status on the initial response. -/
def doRequestFailed {β : Type} : HttpResult β → Prop
  | .exn _ => True
  | .resp status _ => status ≠ 200

/-- Full-request failure as observed by the Ollama handlers: a raised
exception, or a status ≥ 400 (what `raise_for_status` rejects) on the
initial response. -/
def ollamaRequestFailed {β : Type} : HttpResult β → Prop
  | .exn _ => True
  | .resp status _ => 400 ≤ status

/-- Failure of the one request that `generate_response` actually issues
for the given provider and mode. -/
def providerRequestFailed (env : ProviderEnv) : LLMProvider → Bool → Prop
  | .DIGITAL_OCEAN, true => doRequestFailed env.doStream
  | .DIGITAL_OCEAN, false => doRequestFailed env.doNormal
  | .OLLAMA, true => ollamaRequestFailed env.ollamaStream
  | .OLLAMA, false => ollamaRequestFailed env.ollamaNormal

/-! ## Embedding client (C5, C6)

`EmbeddingService` in `src/src/app/services/embedding_services.py`
(`src/app/services/embedding_service.py` is an identical earlier revision
of the same search path). JSON values are embedded as an explicit AST;
numbers are kept as exact decimal literals (mantissa and exponent), which
is what the JSON text carries.
-/

/-- A JSON number literal: `mantissa * 10 ^ exponent`. -/
structure JNum where
  mantissa : Int
  exponent : Int
deriving DecidableEq, Repr

/-- A JSON value. -/
inductive JValue where
  | null
  | bool (b : Bool)
  | num (n : JNum)
  | str (s : String)
  | arr (elems : List JValue)
  | obj (fields : List (String × JValue))

/-- One element of the `results` array returned by the embedding search
endpoint, as accessed by `retrieve_context` via `result.get(...)`: every
field may be absent. -/
structure SearchRes where
  id : Option String
  score : Option JNum
  metadata : Option (List (String × JValue))
  text : Option String

/-- The `source_info` dict built by `retrieve_context`
(embedding_services.py lines 83-88): `id` and `score` are passed through
(possibly `None`), `metadata` defaults to `{}`, `text` to `""`. -/
structure SourceInfo where
  id : Option String
  score : Option JNum
  metadata : List (String × JValue)
  text : String

/-- Outcome of the search POST as observed by `proxy_request`
(embedding_services.py lines 22-39): `reqError` covers every
`requests.RequestException` — connection error, the non-2xx statuses
rejected by `raise_for_status`, and a JSON-decoding failure of the body —
while `success` carries the `results` key of the parsed body (absent when
the payload is shaped differently). -/
inductive SearchHttp where
  | reqError (msg : String)
  | success (results : Option (List SearchRes))

/-- A transport failure of the embedding search. -/
def SearchHttp.isTransportFailure : SearchHttp → Prop
  | .reqError _ => True
  | .success _ => False

/-- The dict returned by `proxy_request`: the parsed body on success,
`\x7b"error": str(e)\x7d` on any `RequestException`. -/
inductive ProxyResult where
  | errorDict (msg : String)
  | body (results : Option (List SearchRes))

/-- `EmbeddingService.proxy_request` (embedding_services.py lines 22-39). -/
def proxy_request : SearchHttp → ProxyResult
  | .reqError msg => .errorDict msg
  | .success results => .body results

/-- `result.get("results", [])` on the dict returned by `proxy_request`:
the error dict has no `results` key. -/
def resultsKey : ProxyResult → List SearchRes
  | .errorDict _ => []
  | .body results => results.getD []

/-- `EmbeddingService.search_embeddings` (embedding_services.py lines
41-61): proxies the search POST and returns `result.get("results", [])`;
the surrounding `except` never fires because `proxy_request` already
returns a dict on failure. -/
def search_embeddings (r : SearchHttp) : List SearchRes :=
  resultsKey (proxy_request r)

/-- The `source_info` dict for one search result
(embedding_services.py lines 83-88). -/
def toSourceInfo (r : SearchRes) : SourceInfo :=
  { id := r.id, score := r.score, metadata := r.metadata.getD [], text := r.text.getD "" }

/-- The result-processing loop of `retrieve_context`
(embedding_services.py lines 75-89): accumulates the non-empty `text`
fields and one `source_info` entry per result, in order. -/
def retrieveLoop : List SearchRes → List String × List SourceInfo
  | [] => ([], [])
  | r :: rest =>
    let text := (r.text).getD ""
    ((if text = "" then (retrieveLoop rest).1 else text :: (retrieveLoop rest).1),
      toSourceInfo r :: (retrieveLoop rest).2)

/-- `EmbeddingService.retrieve_context` (embedding_services.py lines
63-93), applied to the search results: returns `([], "")` when the result
list is empty, otherwise the sources together with the non-empty texts
joined by `"\n\n"`. -/
def retrieve_context (search_results : List SearchRes) : List SourceInfo × String :=
  if search_results.isEmpty then ([], "")
  else
    ((retrieveLoop search_results).2,
      String.intercalate "\n\n" (retrieveLoop search_results).1)

/-! ## Data model and chat store (C7, C9)

`Source` / `ChatHistory` are the pydantic models of
`src/src/app/models/llm_models.py`; the store is
`DatabaseService` (`src/src/app/services/database_services.py`) over the
`chat_history` table of `src/src/database/factories/chat_factory.py`,
embedded as an explicit append-only row list with an auto-increment
counter starting at 1. The serialized `sources` text column is represented
by the JSON AST that `json.dumps` writes and `json.loads` reads back.
-/

/-- `Source` (llm_models.py lines 6-12): `id` and `score` are required,
`metadata` defaults to `\x7b\x7d`. -/
structure Source where
  id : String
  score : JNum
  metadata : List (String × JValue)
  text : String

/-- `ChatHistory` (llm_models.py lines 14-24): `id` is absent before
persistence; `timestamp` is fixed at construction. -/
structure ChatHistory where
  id : Option Nat
  timestamp : String
  query : String
  response : String
  sources : List Source
  title : String

/-- `s.dict()` for one source, as serialized by `json.dumps` in
`save_chat_to_db` (database_services.py line 38). -/
def Source.toJson (s : Source) : JValue :=
  .obj [("id", .str s.id), ("score", .num s.score),
        ("metadata", .obj s.metadata), ("text", .str s.text)]

/-- The JSON array stored in the `sources` text column. -/
def sourcesToJson (sources : List Source) : JValue :=
  .arr (sources.map Source.toJson)

/-- One row of the `chat_history` table (chat_factory.py lines 14-24);
the `sources` column holds serialized JSON text, represented by its AST. -/
structure ChatRow where
  id : Nat
  timestamp : String
  query : String
  response : String
  sources : JValue
  title : String

/-- The relational store: rows in insertion order plus the auto-increment
counter for the integer primary key. -/
structure DB where
  rows : List ChatRow
  nextId : Nat

/-- A freshly initialized store: no rows, identifiers start at 1. -/
def emptyDB : DB := ⟨[], 1⟩

/-- The `ChatHistoryModel` built by `save_chat_to_db`
(database_services.py lines 40-47). -/
def chatToRow (chat : ChatHistory) (rowId : Nat) : ChatRow :=
  ⟨rowId, chat.timestamp, chat.query, chat.response,
    sourcesToJson chat.sources, chat.title⟩

/-- `DatabaseService.save_chat_to_db` (database_services.py lines 33-54):
serializes the sources, appends one row, commits, and returns the
storage-assigned identifier. -/
def save_chat_to_db (chat : ChatHistory) (db : DB) : Nat × DB :=
  (db.nextId, ⟨db.rows ++ [chatToRow chat db.nextId], db.nextId + 1⟩)

/-- The `stream` field of the payload `generate_chat_title` sends
(llm_services.py lines 340 and 353): `False` in both branches. -/
def generate_chat_title_stream_flag : LLMProvider → Bool
  | .DIGITAL_OCEAN => false
  | .OLLAMA => false

/-- Whether a Digital Ocean body is a JSON-decoding failure. -/
def DOBody.isMalformed : DOBody → Prop
  | .malformed _ => True
  | _ => False

/-- Whether an Ollama body is a JSON-decoding failure. -/
def OllamaBody.isMalformed : OllamaBody → Prop
  | .malformed _ => True
  | _ => False

/-- The Digital Ocean branch of `generate_chat_title`
(llm_services.py lines 331-348). -/
def generate_chat_title_do (r : HttpResult DOBody) : Except String String :=
  match r with
  | .exn _ => .ok "Untitled Chat"
  | .resp status body =>
    if 400 ≤ status then .ok "Untitled Chat"
    else
      match body with
      | .malformed _ => .ok "Untitled Chat"
      | .noChoices => .error "KeyError: choices"
      | .firstChoice mc =>
        match mc with
        | some content => .ok content.trim
        | none => .error "KeyError: message.content"

/-- The Ollama branch of `generate_chat_title`
(llm_services.py lines 349-357). -/
def generate_chat_title_ollama (r : HttpResult OllamaBody) : Except String String :=
  match r with
  | .exn _ => .ok "Untitled Chat"
  | .resp status body =>
    if 400 ≤ status then .ok "Untitled Chat"
    else
      match body with
      | .malformed _ => .ok "Untitled Chat"
      | .dict resp => .ok (resp.getD "Untitled Chat").trim

/-- `LLMService.generate_chat_title` (llm_services.py lines 313-360):
dispatch on the provider. -/
def generate_chat_title (provider : LLMProvider)
    (rdo : HttpResult DOBody) (roll : HttpResult OllamaBody) : Except String String :=
  match provider with
  | .DIGITAL_OCEAN => generate_chat_title_do rdo
  | .OLLAMA => generate_chat_title_ollama roll

/-- Failure of the title request actually issued for the given provider:
an exception, a status rejected by `raise_for_status`, or a body that
fails JSON decoding (all surfacing as `requests.RequestException`). -/
def titleRequestFailed (provider : LLMProvider)
    (rdo : HttpResult DOBody) (roll : HttpResult OllamaBody) : Prop :=
  match provider with
  | .DIGITAL_OCEAN =>
    match rdo with
    | .exn _ => True
    | .resp status body => 400 ≤ status ∨ body.isMalformed
  | .OLLAMA =>
    match roll with
    | .exn _ => True
    | .resp status body => 400 ≤ status ∨ body.isMalformed

/-! ## C10: pipeline validation failure on incomplete search results

`LLMService.process_query` (llm_services.py lines 362-401) hands the raw
`source_info` dicts from `retrieve_context` to the pydantic
`ChatHistory` constructor, which validates each dict against `Source`
(string `id`, float `score` both required); `ChatService.process_query`
(chat_service.py lines 44-49) performs the same `Source(**source)`
validation explicitly. A `None` id or score therefore raises a
`ValidationError` before anything is persisted.
-/

/-- Pydantic validation of one `source_info` dict against `Source`:
`id` and `score` must be present. -/
def Source.validate (s : SourceInfo) : Option Source :=
  match s.id, s.score with
  | some i, some sc => some ⟨i, sc, s.metadata, s.text⟩
  | _, _ => none

/-- Validation of the whole `sources` list, failing on the first invalid
entry as the pydantic constructor does. -/
def validateSources : List SourceInfo → Option (List Source)
  | [] => some []
  | s :: rest =>
    match Source.validate s, validateSources rest with
    | some v, some vs => some (v :: vs)
    | _, _ => none

/-- The external outcomes one `process_query` run may observe. -/
structure PipelineEnv where
  search : SearchHttp
  llm : ProviderEnv
  titleDO : HttpResult DOBody
  titleOllama : HttpResult OllamaBody

/-- The response dict returned by `process_query`
(llm_services.py lines 394-401). -/
structure QueryOut where
  id : Nat
  query : String
  response : String
  sources : List SourceInfo
  title : String
  timestamp : String

/-- `LLMService.process_query` (llm_services.py lines 362-401): retrieve
context, generate the response, generate the title, construct the
`ChatHistory` (validating the source dicts), persist it, and return the
response dict. An uncaught exception — a `KeyError` from title
generation or a `ValidationError` from `ChatHistory` — is the `error`
branch. -/
def process_query (env : PipelineEnv) (provider : LLMProvider) (streaming : Bool)
    (query timestamp : String) (db : DB) : Except String (QueryOut × DB) :=
  let sources := (retrieve_context (search_embeddings env.search)).1
  let response := generate_response env.llm provider streaming
  match generate_chat_title provider env.titleDO env.titleOllama with
  | .error e => .error e
  | .ok title =>
    match validateSources sources with
    | none => .error "ValidationError: Source"
    | some srcs =>
      let saved := save_chat_to_db ⟨none, timestamp, query, response, srcs, title⟩ db
      .ok (⟨saved.1, query, response, sources, title, timestamp⟩, saved.2)

/-! ## Properties -/

theorem StrPrefix.length_le {a b : String} (h : StrPrefix a b) : a.length ≤ b.length := by
  obtain ⟨t, rfl⟩ := h
  simp [String.length_append]

/-- Helper: every callback value in the accumulation loop extends the
accumulator it started from, and consecutive callback values form a
prefix chain. -/
theorem streamAccum_chain (l : List (Option String)) (full : String) :
    List.Chain' StrPrefix (full :: (streamAccum full l).2) := by
  induction l generalizing full with
  | nil => simp [streamAccum]
  | cons c rest ih =>
    match c with
    | none => simpa [streamAccum] using ih full
    | some s =>
      by_cases hs : s = ""
      · simpa [streamAccum, hs] using ih full
      · simpa [streamAccum, hs] using List.Chain'.cons ⟨s, rfl⟩ (ih (full ++ s))

/-- Helper: the final `full_response` is the last callback value, unless no
callback fired, in which case it is the starting accumulator. -/
theorem streamAccum_last (l : List (Option String)) (full : String) :
    (streamAccum full l).2.getLast? = some (streamAccum full l).1 ∨
      ((streamAccum full l).2 = [] ∧ (streamAccum full l).1 = full) := by
  induction l generalizing full with
  | nil => right; simp [streamAccum]
  | cons c rest ih =>
    match c with
    | none => simpa [streamAccum] using ih full
    | some s =>
      by_cases hs : s = ""
      · simpa [streamAccum, hs] using ih full
      · rcases ih (full ++ s) with h | ⟨h1, h2⟩
        · left
          simp [streamAccum, hs, List.getLast?_cons, h]
        · left
          simp [streamAccum, hs, h1, h2]

/-- Helper: the callback fires exactly once per line with a non-empty
extracted content fragment. -/
theorem streamAccum_length (l : List (Option String)) (full : String) :
    (streamAccum full l).2.length = ((l.filterMap id).filter (· ≠ "")).length := by
  induction l generalizing full with
  | nil => simp [streamAccum]
  | cons c rest ih =>
    match c with
    | none => simpa [streamAccum] using ih full
    | some s =>
      by_cases hs : s = ""
      · simp [streamAccum, hs, List.filterMap_cons, ih full]
      · simp [streamAccum, hs, List.filterMap_cons, ih (full ++ s)]

theorem streamAccum_props (l : List (Option String)) :
    List.Chain' StrPrefix (streamAccum "" l).2 ∧
    List.Chain' (fun a b => a.length ≤ b.length) (streamAccum "" l).2 ∧
    (streamAccum "" l).2.length = ((l.filterMap id).filter (· ≠ "")).length ∧
    ((streamAccum "" l).2.getLast? = some (streamAccum "" l).1 ∨
      ((streamAccum "" l).2 = [] ∧ (streamAccum "" l).1 = "")) :=
  ⟨(streamAccum_chain l "").tail,
    ((streamAccum_chain l "").tail).imp fun _ _ h => h.length_le,
    streamAccum_length l "", streamAccum_last l ""⟩

/-- C2 counterexample: a Digital Ocean streaming call whose initial
response succeeds, whose one content chunk makes the callback fire with
the cumulative text `"Hello"`, and whose line iteration then raises a
transport error: the outer handler (llm_services.py lines 167-170)
returns — and the pipeline persists — `"Error: connection reset"`, which
differs from `"Hello"`, the last delivered cumulative value. This refutes
the claim that the string finally returned always equals the last
delivered cumulative value. -/
theorem streaming_interrupted_returns_error_not_last :
    handle_streaming_response
        (.resp 200 ⟨[.deltaContent "Hello"], some "connection reset"⟩)
      = ("Error: connection reset", ["Hello"]) ∧
    (handle_streaming_response
        (.resp 200 ⟨[.deltaContent "Hello"], some "connection reset"⟩)).2.getLast?
      ≠ some (handle_streaming_response
        (.resp 200 ⟨[.deltaContent "Hello"], some "connection reset"⟩)).1 := by
  constructor
  · rfl
  · decide

/-- C2 (amended): for every streaming call to `generate_response` (either
backend) whose initial response succeeds, the delta callback receives the
cumulative response text: the sequence of callback values is a prefix
chain with non-decreasing lengths and the callback fires once per
received content-bearing chunk. When line iteration completes normally,
the string finally returned — which `process_query` persists verbatim as
the `response` field — equals the last delivered cumulative value; when a
transport error interrupts the stream after the callbacks have fired, the
returned (and persisted) string is instead the `"Error: "`-prefixed
message of that error. -/
theorem streaming_callback_cumulative
    (body : StreamBody DOStreamLine) (obody : StreamBody OllamaStreamLine) :
    StreamRun (handle_streaming_response (.resp 200 body))
      ((body.lines.filterMap doLineContent).filter (· ≠ "")).length
      body.interrupted ∧
    StreamRun (handle_ollama_streaming_response (.resp 200 obody))
      ((obody.lines.filterMap ollamaLineContent).filter (· ≠ "")).length
      obody.interrupted := by
  constructor
  · have h := streamAccum_props (body.lines.map doLineContent)
    simp only [List.filterMap_map, Function.id_comp] at h
    cases hint : body.interrupted with
    | none =>
      have he : handle_streaming_response (.resp 200 body)
          = streamAccum "" (body.lines.map doLineContent) := by
        simp [handle_streaming_response, hint]
      rw [he]
      exact ⟨h.1, h.2.1, h.2.2.1, fun _ => h.2.2.2,
        fun msg hmsg => Option.noConfusion hmsg⟩
    | some m =>
      have he : handle_streaming_response (.resp 200 body)
          = ("Error: " ++ m, (streamAccum "" (body.lines.map doLineContent)).2) := by
        simp [handle_streaming_response, hint]
      rw [he]
      exact ⟨h.1, h.2.1, h.2.2.1, fun hc => Option.noConfusion hc,
        fun msg hmsg => congrArg ("Error: " ++ ·) (Option.some.inj hmsg)⟩
  · have h := streamAccum_props (obody.lines.map ollamaLineContent)
    simp only [List.filterMap_map, Function.id_comp] at h
    cases hint : obody.interrupted with
    | none =>
      have he : handle_ollama_streaming_response (.resp 200 obody)
          = streamAccum "" (obody.lines.map ollamaLineContent) := by
        simp [handle_ollama_streaming_response, hint]
      rw [he]
      exact ⟨h.1, h.2.1, h.2.2.1, fun _ => h.2.2.2,
        fun msg hmsg => Option.noConfusion hmsg⟩
    | some m =>
      have he : handle_ollama_streaming_response (.resp 200 obody)
          = ("Error: " ++ m, (streamAccum "" (obody.lines.map ollamaLineContent)).2) := by
        simp [handle_ollama_streaming_response, hint]
      rw [he]
      exact ⟨h.1, h.2.1, h.2.2.1, fun hc => Option.noConfusion hc,
        fun msg hmsg => congrArg ("Error: " ++ ·) (Option.some.inj hmsg)⟩

/-- Witness for `streaming_callback_cumulative`: a completed Digital Ocean
stream whose returned string equals the last delivered value, and an
interrupted Ollama stream whose returned string is the error message. -/
theorem streaming_callback_cumulative_witness :
    ((handle_streaming_response (.resp 200 ⟨[.deltaContent "Hi"], none⟩)).2.getLast?
        = some (handle_streaming_response (.resp 200 ⟨[.deltaContent "Hi"], none⟩)).1 ∨
      ((handle_streaming_response (.resp 200 ⟨[.deltaContent "Hi"], none⟩)).2 = [] ∧
        (handle_streaming_response (.resp 200 ⟨[.deltaContent "Hi"], none⟩)).1 = "")) ∧
    (handle_ollama_streaming_response
        (.resp 200 ⟨[.responseContent "Halo"], some "connection reset"⟩)).1
      = "Error: " ++ "connection reset" :=
  ⟨(streaming_callback_cumulative ⟨[.deltaContent "Hi"], none⟩
      ⟨[.responseContent "Halo"], some "connection reset"⟩).1.2.2.2.1 rfl,
    (streaming_callback_cumulative ⟨[.deltaContent "Hi"], none⟩
      ⟨[.responseContent "Halo"], some "connection reset"⟩).2.2.2.2.2
      "connection reset" rfl⟩

/-! ## C1: provider validation at the transport boundary -/

/-- C1 counterexample: `"Gemini"` is not a recognized provider value, yet
`ChatService.process_query` (chat_service.py lines 23-28) silently selects
the Ollama backend for it — the request is not rejected, refuting the claim
that an unrecognized provider value is never silently defaulted. -/
theorem chatService_silently_defaults_unknown_provider :
    LLMProvider.ofString "Gemini" = none ∧
    ChatService.selectProvider "Gemini" = LLMProvider.OLLAMA := by
  constructor <;> decide

/-- C1 (amended): for every provider string other than the two recognized
values, the revision whose request schema types `provider` as the
`LLMProvider` enum rejects the request at validation, before any outbound
call; but the revision that types `provider` as a plain string
(`ChatService.process_query`) silently routes the request to the Ollama
backend. -/
theorem unknown_provider_dispatch (s : String)
    (h1 : s ≠ "Digital Ocean") (h2 : s ≠ "Ollama") :
    LLMProvider.ofString s = none ∧
    ChatService.selectProvider s = LLMProvider.OLLAMA := by
  simp [LLMProvider.ofString, ChatService.selectProvider, h1, h2]

/-- Witness for `unknown_provider_dispatch` at the concrete input
`"Claude"`. -/
theorem unknown_provider_dispatch_witness :
    LLMProvider.ofString "Claude" = none ∧
    ChatService.selectProvider "Claude" = LLMProvider.OLLAMA :=
  unknown_provider_dispatch "Claude" (by decide) (by decide)

theorem error_line_ne_done (e : String) : "Error: " ++ e ≠ DONE_SIGNAL := by
  intro h
  have hd := congrArg (fun s => s.data.head?) h
  have h1 : ("Error: " ++ e).data = ['E', 'r', 'r', 'o', 'r', ':', ' '] ++ e.data := rfl
  have h2 : DONE_SIGNAL.data = ['_', '_', 'D', 'O', 'N', 'E', '_', '_'] := rfl
  simp only [h1, h2, List.cons_append, List.head?_cons] at hd
  exact absurd (Option.some.inj hd) (by decide)

/-- C3: on the success path and on every failure path of the background
pipeline task, the terminal completion signal `"__DONE__"` is placed on
the handoff queue exactly once, so the event stream consumed by
`stream_response` always terminates. -/
theorem done_signal_exactly_once (outcome : Except String String) :
    (process_query_background outcome).count DONE_SIGNAL = 1 := by
  cases outcome with
  | ok r => simp [process_query_background]
  | error e =>
    simp [process_query_background, List.count_cons, error_line_ne_done e]

/-- C4: `generate_response` is a total function into strings (it never
raises to its caller), and whenever the full provider request fails — a
raised connection error or a non-success status on the initial response —
the returned string begins with `"Error: "`. -/
theorem generate_response_error_prefix
    (env : ProviderEnv) (provider : LLMProvider) (streaming : Bool)
    (hfail : providerRequestFailed env provider streaming) :
    StrPrefix "Error: " (generate_response env provider streaming) := by
  cases provider with
  | DIGITAL_OCEAN =>
    cases streaming with
    | true =>
      cases h : env.doStream with
      | exn msg => exact ⟨msg, by simp [generate_response, handle_streaming_response, h]⟩
      | resp status body =>
        have hs : status ≠ 200 := by simpa [providerRequestFailed, doRequestFailed, h] using hfail
        exact ⟨toString status, by simp [generate_response, handle_streaming_response, h, hs]⟩
    | false =>
      cases h : env.doNormal with
      | exn msg => exact ⟨msg, by simp [generate_response, handle_normal_response, h]⟩
      | resp status body =>
        have hs : status ≠ 200 := by simpa [providerRequestFailed, doRequestFailed, h] using hfail
        exact ⟨toString status, by simp [generate_response, handle_normal_response, h, hs]⟩
  | OLLAMA =>
    cases streaming with
    | true =>
      cases h : env.ollamaStream with
      | exn msg => exact ⟨msg, by simp [generate_response, handle_ollama_streaming_response, h]⟩
      | resp status body =>
        have hs : 400 ≤ status := by
          simpa [providerRequestFailed, ollamaRequestFailed, h] using hfail
        exact ⟨toString status,
          by simp [generate_response, handle_ollama_streaming_response, h, hs]⟩
    | false =>
      cases h : env.ollamaNormal with
      | exn msg => exact ⟨msg, by simp [generate_response, handle_ollama_normal_response, h]⟩
      | resp status body =>
        have hs : 400 ≤ status := by
          simpa [providerRequestFailed, ollamaRequestFailed, h] using hfail
        exact ⟨toString status,
          by simp [generate_response, handle_ollama_normal_response, h, hs]⟩

/-- Witness for `generate_response_error_prefix`: a Digital Ocean
non-streaming call whose initial response has status 500. -/
theorem generate_response_error_prefix_witness :
    StrPrefix "Error: "
      (generate_response
        ⟨.exn "conn", .resp 500 .noChoices, .exn "conn", .exn "conn"⟩
        .DIGITAL_OCEAN false) :=
  generate_response_error_prefix
    ⟨.exn "conn", .resp 500 .noChoices, .exn "conn", .exn "conn"⟩
    .DIGITAL_OCEAN false (by simp [providerRequestFailed, doRequestFailed])

/-- C5: on any transport failure of the embedding search — connection
error, non-2xx status, malformed payload, all of which reach
`proxy_request`'s exception handler — `search_embeddings` returns the
empty list without raising, and `retrieve_context` on that result yields
`([], "")`, so the pipeline proceeds with empty context. -/
theorem search_failure_degrades_to_empty (r : SearchHttp)
    (hfail : r.isTransportFailure) :
    search_embeddings r = [] ∧ retrieve_context (search_embeddings r) = ([], "") := by
  cases r with
  | reqError msg => simp [search_embeddings, proxy_request, resultsKey, retrieve_context]
  | success results => exact absurd hfail (by simp [SearchHttp.isTransportFailure])

/-- Witness for `search_failure_degrades_to_empty` at a concrete
connection error. -/
theorem search_failure_degrades_to_empty_witness :
    search_embeddings (.reqError "connection refused") = [] ∧
    retrieve_context (search_embeddings (.reqError "connection refused")) = ([], "") :=
  search_failure_degrades_to_empty (.reqError "connection refused") trivial

/-- Helper: closed form of the `retrieve_context` loop. -/
theorem retrieveLoop_spec (results : List SearchRes) :
    retrieveLoop results =
      ((results.map fun r => (r.text).getD "").filter (· ≠ ""),
        results.map toSourceInfo) := by
  induction results with
  | nil => rfl
  | cons r rest ih =>
    by_cases h : (r.text).getD "" = "" <;>
      simp [retrieveLoop, ih, List.filter_cons, h]

/-- C6: for every search-result list, `retrieve_context` returns one
source entry per result, in retrieval order, keeping entries whose text is
empty, and a context string equal to the non-empty `text` fields joined by
a blank line in the same order; in particular, with zero results it
returns `([], "")`. -/
theorem retrieve_context_spec (results : List SearchRes) :
    (retrieve_context results).1 = results.map toSourceInfo ∧
    (retrieve_context results).2 =
      String.intercalate "\n\n"
        ((results.map fun r => (r.text).getD "").filter (· ≠ "")) := by
  cases results with
  | nil => exact ⟨rfl, rfl⟩
  | cons r rest =>
    rw [retrieve_context, if_neg (by simp)]
    rw [retrieveLoop_spec]
    exact ⟨rfl, rfl⟩

/-- C8: the title request is always non-streaming (`"stream": False` in
both provider payloads), and on any failure of the request —
connection error, failing status, undecodable body — `generate_chat_title`
returns the fixed placeholder `"Untitled Chat"` rather than raising. -/
theorem generate_chat_title_policy (provider : LLMProvider)
    (rdo : HttpResult DOBody) (roll : HttpResult OllamaBody) :
    generate_chat_title_stream_flag provider = false ∧
    (titleRequestFailed provider rdo roll →
      generate_chat_title provider rdo roll = .ok "Untitled Chat") := by
  cases provider with
  | DIGITAL_OCEAN =>
    refine ⟨rfl, fun hfail => ?_⟩
    cases rdo with
    | exn msg => rfl
    | resp status body =>
      rcases hfail with hs | hb
      · simp [generate_chat_title, generate_chat_title_do, hs]
      · cases body with
        | malformed msg =>
          by_cases hs : 400 ≤ status <;>
            simp [generate_chat_title, generate_chat_title_do, hs]
        | noChoices => exact absurd hb (by simp [DOBody.isMalformed])
        | firstChoice mc => exact absurd hb (by simp [DOBody.isMalformed])
  | OLLAMA =>
    refine ⟨rfl, fun hfail => ?_⟩
    cases roll with
    | exn msg => rfl
    | resp status body =>
      rcases hfail with hs | hb
      · simp [generate_chat_title, generate_chat_title_ollama, hs]
      · cases body with
        | malformed msg =>
          by_cases hs : 400 ≤ status <;>
            simp [generate_chat_title, generate_chat_title_ollama, hs]
        | dict resp => exact absurd hb (by simp [OllamaBody.isMalformed])

/-- Witness for `generate_chat_title_policy`: an Ollama title request
hitting a connection error. -/
theorem generate_chat_title_policy_witness :
    generate_chat_title_stream_flag .OLLAMA = false ∧
    generate_chat_title .OLLAMA (.exn "unused") (.exn "connection refused") =
      .ok "Untitled Chat" :=
  ⟨(generate_chat_title_policy .OLLAMA (.exn "unused") (.exn "connection refused")).1,
    (generate_chat_title_policy .OLLAMA (.exn "unused") (.exn "connection refused")).2
      trivial⟩

theorem validateSources_none {l : List SourceInfo} (s : SourceInfo)
    (hs : s ∈ l) (hbad : Source.validate s = none) :
    validateSources l = none := by
  induction l with
  | nil => cases hs
  | cons a rest ih =>
    cases hs with
    | head => simp [validateSources, hbad]
    | tail _ hmem =>
      cases h : Source.validate a <;>
        simp [validateSources, h, ih hmem]

theorem validate_none_of_missing (s : SourceInfo)
    (h : s.id = none ∨ s.score = none) : Source.validate s = none := by
  cases hid : s.id <;> cases hsc : s.score <;> simp_all [Source.validate]

/-- C10: if any search result returned by the embedding service lacks an
`id` or `score` field, `retrieve_context` produces a source entry whose
id or score is `None`, and `process_query` then fails with a validation
error while constructing the `ChatHistory` instead of returning a
result. -/
theorem missing_id_or_score_fails_validation (env : PipelineEnv)
    (provider : LLMProvider) (streaming : Bool) (query timestamp : String) (db : DB)
    (hbad : ∃ r ∈ search_embeddings env.search, r.id = none ∨ r.score = none) :
    (∃ s ∈ (retrieve_context (search_embeddings env.search)).1,
        s.id = none ∨ s.score = none) ∧
    (∃ msg, process_query env provider streaming query timestamp db = .error msg) := by
  obtain ⟨r, hr, hmiss⟩ := hbad
  have hne : ¬(search_embeddings env.search).isEmpty := by
    cases h : search_embeddings env.search with
    | nil => rw [h] at hr; cases hr
    | cons a l => simp
  have h1 : (retrieve_context (search_embeddings env.search)).1
      = (search_embeddings env.search).map toSourceInfo := by
    rw [retrieve_context, if_neg hne, retrieveLoop_spec]
  have hmem : toSourceInfo r ∈ (retrieve_context (search_embeddings env.search)).1 := by
    rw [h1]; exact List.mem_map_of_mem toSourceInfo hr
  have hmiss2 : (toSourceInfo r).id = none ∨ (toSourceInfo r).score = none := by
    rcases hmiss with h | h
    · exact Or.inl (by simp [toSourceInfo, h])
    · exact Or.inr (by simp [toSourceInfo, h])
  refine ⟨⟨toSourceInfo r, hmem, hmiss2⟩, ?_⟩
  have hval : validateSources (retrieve_context (search_embeddings env.search)).1 = none :=
    validateSources_none (toSourceInfo r) hmem (validate_none_of_missing _ hmiss2)
  cases htitle : generate_chat_title provider env.titleDO env.titleOllama with
  | error e => exact ⟨e, by simp [process_query, htitle]⟩
  | ok t => exact ⟨"ValidationError: Source", by simp [process_query, htitle, hval]⟩

/-- Witness for `missing_id_or_score_fails_validation`: one search result
with a `text` but no `id` and no `score`. -/
theorem missing_id_or_score_fails_validation_witness :
    (∃ s ∈ (retrieve_context (search_embeddings
        (.success (some [⟨none, none, none, some "snippet"⟩])))).1,
      s.id = none ∨ s.score = none) ∧
    (∃ msg, process_query
        ⟨.success (some [⟨none, none, none, some "snippet"⟩]),
          ⟨.exn "unused", .exn "unused", .exn "unused", .exn "unused"⟩,
          .exn "unused", .exn "unused"⟩
        .OLLAMA false "q" "2026-01-01 00:00:00" emptyDB = .error msg) :=
  missing_id_or_score_fails_validation
    ⟨.success (some [⟨none, none, none, some "snippet"⟩]),
      ⟨.exn "unused", .exn "unused", .exn "unused", .exn "unused"⟩,
      .exn "unused", .exn "unused"⟩
    .OLLAMA false "q" "2026-01-01 00:00:00" emptyDB
    ⟨⟨none, none, none, some "snippet"⟩, List.Mem.head _, Or.inl rfl⟩

end PSLLM

